import Mathlib

/-!
Verification of the configuration-store core of flameshot
(`src/src/utils/confighandler.h`).

The repository ships only the header: it declares `ConfigHandler`'s generic
store (`value` / `setValue`), the shortcut wrappers (`shortcut` /
`setShortcut`), the validation pipeline (`checkForErrors`,
`checkUnrecognizedSettings`, `checkShortcutConflicts`, `checkSemantics`), the
error state machine (`checkAndHandleError`, `setErrorState`, `hasError`,
signals `error` / `errorResolved` / `fileChanged`) and the accessor macros
`CONFIG_GETTER` / `CONFIG_SETTER` / `CONFIG_GETTER_SETTER`.  The macro bodies
are fully given in the header and are embedded from the source; the member
function bodies live in `confighandler.cpp`, which is not part of the sources,
so those operations are modelled from the specification's contracts, as
flagged on each definition.
-/

namespace Flameshot

/-- A stored value (the model of `QVariant`): the raw and typed values the
store traffics in. -/
inductive Variant where
  | str : String → Variant
  | int : Int → Variant
  | bool : Bool → Variant
deriving DecidableEq, Repr

/-- Modelled from the spec: a per-key polymorphic descriptor
`{ defaultValue, validate(raw) -> bool, serialize, deserialize }`
(spec §3 "ValueHandler", §4.1 Value Codec Registry).  The concrete handler
classes live outside the shipped header. -/
structure ValueHandler where
  defaultValue : Variant
  validate : Variant → Bool
  serialize : Variant → Variant
  deserialize : Variant → Variant

/-- A storage key with its `group/name` structure made explicit (spec §3:
"Keys are flat strings with optional `group/name` structure"; §6: the
persistence collaborator offers "group/key addressing").  The first component
is the group (`""` for the default group, `"Shortcuts"` for shortcut
bindings), the second the key name within the group. -/
abbrev GroupKey := String × String

/-- The flat string form of a key, as it appears in the config file and in
diagnostics (`group/name`, or just `name` in the default group). -/
def GroupKey.flat (k : GroupKey) : String :=
  if k.1 == "" then k.2 else k.1 ++ "/" ++ k.2

/-- The persistence collaborator's state: an association list from keys to
raw stored values (spec §3, §6 "Persistence collaborator"). -/
def Store := List (GroupKey × Variant)

/-- Synchronous `read(key) -> rawValue | absent` of the persistence
collaborator (spec §6). -/
def readStore : Store → GroupKey → Option Variant
  | [], _ => none
  | (k, v) :: rest, key => if k == key then some v else readStore rest key

/-- Synchronous `write(key, rawValue)` of the persistence collaborator
(spec §6); key strings stay unique in the store (spec §3 invariant). -/
def writeStore (st : Store) (key : GroupKey) (v : Variant) : Store :=
  (key, v) :: (st.filter fun p => p.1 != key)

/-- Modelled from the spec: the state of one `ConfigHandler` minus the error
flags — the handler registry (one handler per recognized general option,
spec §3 invariant), the recognized shortcut-action names (spec §3
"KeyRegistry"), and the backing store.  The registry fields are immutable
after startup; only `store` changes. -/
structure Config where
  handlers : List (String × ValueHandler)
  recognizedShortcutNames : List String
  store : Store

/-- Modelled from the spec: `handlerFor(key) -> ValueHandler` lookup of the
Value Codec Registry (spec §4.1); `ConfigHandler::valueHandler` in the
header. -/
def Config.valueHandler (c : Config) : String → Option ValueHandler :=
  go c.handlers
where
  go : List (String × ValueHandler) → String → Option ValueHandler
    | [], _ => none
    | (k, h) :: rest, key => if k == key then some h else go rest key

/-- The recognized general-option key set (spec §3 "KeyRegistry"): exactly the
keys with a registered handler (spec §3 invariant: every exposed key has
exactly one registered handler). -/
def Config.recognizedGeneralOptions (c : Config) : List String :=
  c.handlers.map Prod.fst

/-- The errors `setValue` can fail fast with (spec §7 taxonomy). -/
inductive ConfigError where
  | unrecognizedKey
deriving DecidableEq, Repr

/-- Modelled from the spec: `value(key) -> Variant` "reads raw storage,
resolves the handler, validates, and returns the typed default if validation
fails (silent recovery — never throws on read of a malformed value)"
(spec §4.3); the absent case degrades to the default (spec §5, §6 "Defaults
provider").  General options live in the default group.  Total: no error
value in the return type. -/
def Config.value (c : Config) (key : String) : Variant :=
  match c.valueHandler key with
  | none => Variant.str ""
  | some h =>
    match readStore c.store ("", key) with
    | none => h.defaultValue
    | some raw => if h.validate raw then h.deserialize raw else h.defaultValue

/-- Modelled from the spec: `setValue(key, value)` "looks up the handler,
asserts the key is recognized (fails fast with `UnrecognizedKeyError`
otherwise), serializes, and writes through to persistence" (spec §4.3);
the assertion is `ConfigHandler::assertKeyRecognized`. -/
def Config.setValue (c : Config) (key : String) (v : Variant) :
    Except ConfigError Config :=
  match c.valueHandler key with
  | none => Except.error ConfigError.unrecognizedKey
  | some h =>
    Except.ok { c with store := writeStore c.store ("", key) (h.serialize v) }

theorem readStore_writeStore_self (st : Store) (key : GroupKey) (v : Variant) :
    readStore (writeStore st key v) key = some v := by
  simp [readStore, writeStore]

/-- C1: for every recognized key `k` and every value `v` valid for `k`'s
handler (its serialization validates and deserializes back to `v`),
`setValue(k, v)` followed by `value(k)` returns exactly `v`. -/
theorem setValue_value_roundtrip (c : Config) (k : String) (h : ValueHandler)
    (v : Variant) (hreg : c.valueHandler k = some h)
    (hval : h.validate (h.serialize v) = true)
    (hinv : h.deserialize (h.serialize v) = v) :
    ∀ c', c.setValue k v = Except.ok c' → c'.value k = v := by
  intro c' hset
  unfold Config.setValue at hset
  rw [hreg] at hset
  cases hset
  have hreg' : Config.valueHandler
      { c with store := writeStore c.store ("", k) (h.serialize v) } k =
        some h := hreg
  unfold Config.value
  rw [hreg', readStore_writeStore_self]
  simp [hval, hinv]

/-- A sample handler for boolean options: the stored raw form is the value
itself, validation checks it is a boolean. -/
def boolHandler (dflt : Bool) : ValueHandler where
  defaultValue := Variant.bool dflt
  validate := fun r => match r with | Variant.bool _ => true | _ => false
  serialize := id
  deserialize := id

/-- A sample handler for non-negative integer options (thickness, font size:
spec §4.1 range validation). -/
def nonNegIntHandler (dflt : Int) : ValueHandler where
  defaultValue := Variant.int dflt
  validate := fun r => match r with | Variant.int n => decide (0 ≤ n) | _ => false
  serialize := id
  deserialize := id

/-- A sample handler for string options. -/
def stringHandler (dflt : String) : ValueHandler where
  defaultValue := Variant.str dflt
  validate := fun r => match r with | Variant.str _ => true | _ => false
  serialize := id
  deserialize := id

/-- A small concrete configuration used to exercise the theorems. -/
def sampleConfig : Config where
  handlers :=
    [("savePathFixed", boolHandler false),
     ("savePath", stringHandler "/tmp"),
     ("drawThickness", nonNegIntHandler 3)]
  recognizedShortcutNames := ["TYPE_COPY", "TYPE_SAVE"]
  store := []

/-- The configuration produced by `setValue "savePathFixed" true` on the
sample configuration. -/
def savedConfig : Config :=
  { sampleConfig with
      store := writeStore sampleConfig.store ("", "savePathFixed")
        ((boolHandler false).serialize (Variant.bool true)) }

theorem setValue_value_roundtrip_witness :
    savedConfig.value "savePathFixed" = Variant.bool true :=
  setValue_value_roundtrip sampleConfig "savePathFixed" (boolHandler false)
    (Variant.bool true) rfl rfl rfl savedConfig rfl

/-- C2: for every key whose stored raw value fails its handler's `validate`,
`value(k)` returns the declared default for `k`; `value` is total (its type
is `Variant`, not an error monad), so no error reaches the caller. -/
theorem value_malformed_returns_default (c : Config) (k : String)
    (h : ValueHandler) (raw : Variant) (hreg : c.valueHandler k = some h)
    (hstored : readStore c.store ("", k) = some raw)
    (hbad : h.validate raw = false) :
    c.value k = h.defaultValue := by
  unfold Config.value
  rw [hreg, hstored]
  simp [hbad]

/-- A configuration whose store holds a malformed value for a recognized key:
`drawThickness` is stored as the negative integer `-3`, which its handler's
range validation rejects. -/
def malformedConfig : Config :=
  { sampleConfig with store := [(("", "drawThickness"), Variant.int (-3))] }

theorem value_malformed_returns_default_witness :
    malformedConfig.value "drawThickness" = Variant.int 3 :=
  value_malformed_returns_default malformedConfig "drawThickness"
    (nonNegIntHandler 3) (Variant.int (-3)) rfl rfl rfl

/-- C3: `setValue` on a key with no registered handler fails fast with
`UnrecognizedKeyError`; on a key with a registered handler the assertion
branch is unreachable and the write proceeds to persistence (the serialized
value is written through). -/
theorem setValue_unrecognized_fails_fast (c : Config) (k : String) (v : Variant) :
    (c.valueHandler k = none →
      c.setValue k v = Except.error ConfigError.unrecognizedKey) ∧
    (∀ h, c.valueHandler k = some h →
      c.setValue k v =
        Except.ok { c with store := writeStore c.store ("", k) (h.serialize v) }) := by
  constructor
  · intro hnone
    unfold Config.setValue
    rw [hnone]
  · intro h hsome
    unfold Config.setValue
    rw [hsome]

theorem setValue_unrecognized_fails_fast_witness :
    sampleConfig.setValue "noSuchKey" (Variant.bool true) =
        Except.error ConfigError.unrecognizedKey ∧
    sampleConfig.setValue "savePathFixed" (Variant.bool true) =
      Except.ok { sampleConfig with
                    store := writeStore sampleConfig.store ("", "savePathFixed")
                      ((boolHandler false).serialize (Variant.bool true)) } :=
  ⟨(setValue_unrecognized_fails_fast sampleConfig "noSuchKey"
      (Variant.bool true)).1 rfl,
   (setValue_unrecognized_fails_fast sampleConfig "savePathFixed"
      (Variant.bool true)).2 (boolHandler false) rfl⟩

/-!  Shortcuts (`ConfigHandler::shortcut` / `setShortcut`) and the validation
pipeline. -/

/-- The stored shortcut bindings: pairs `(action name, bound raw value)` of
every entry of the `Shortcuts` group (spec §3: shortcut keys live in a
`Shortcuts` group). -/
def Config.shortcutEntries (c : Config) : List (String × Variant) :=
  (c.store.filter fun p => p.1.1 == "Shortcuts").map fun p => (p.1.2, p.2)

/-- Modelled from the spec: `shortcut(name) -> string`, the shortcut-specific
thin read wrapper (spec §4.3). -/
def Config.shortcut (c : Config) (name : String) : String :=
  match readStore c.store ("Shortcuts", name) with
  | some (Variant.str s) => s
  | _ => ""

/-- Modelled from the spec: `setShortcut(name, keySequence) -> bool` "returns
false (refusing the write) if the key sequence is already bound to a
different action, enforcing conflict-freedom at write time" (spec §4.3);
otherwise it writes the binding into the `Shortcuts` group and reports
success. -/
def Config.setShortcut (c : Config) (name seq : String) : Bool × Config :=
  if c.shortcutEntries.any fun p => p.2 == Variant.str seq && p.1 != name then
    (false, c)
  else
    (true,
     { c with store := writeStore c.store ("Shortcuts", name) (Variant.str seq) })

/-- Whether a stored key is recognized: default-group keys must be recognized
general options, `Shortcuts`-group keys must be recognized shortcut action
names, and any key outside both sets is unrecognized (spec §4.4
"Unrecognized settings"). -/
def Config.isRecognized (c : Config) (k : GroupKey) : Bool :=
  if k.1 == "Shortcuts" then c.recognizedShortcutNames.contains k.2
  else if k.1 == "" then c.recognizedGeneralOptions.contains k.2
  else false

/-- The keys currently present in the backing store. -/
def Config.storedKeys (c : Config) : List GroupKey :=
  c.store.map Prod.fst

/-- Modelled from the spec: `checkUnrecognizedSettings(log?) -> bool` — "for
every group in storage, for every key in that group, the key must belong to
the recognized general-option set (for the default group) or the recognized
shortcut-name set (for the shortcuts group).  Any key outside both is
reported and counts as an error" (spec §4.4).  The second component is the
diagnostic log lines written to the optional sink. -/
def Config.checkUnrecognizedSettings (c : Config) : Bool × List String :=
  let offenders := c.storedKeys.filter fun k => !(c.isRecognized k)
  (!offenders.isEmpty,
   offenders.map fun k => "Unrecognized setting: " ++ k.flat)

/-- Modelled from the spec: `checkShortcutConflicts(log?) -> bool` — "build a
multimap from bound key-sequence → set of action names; any key-sequence
bound to more than one action is a conflict", detection only (spec §4.4). -/
def Config.checkShortcutConflicts (c : Config) : Bool × List String :=
  let conflicts := c.shortcutEntries.filter fun p =>
    c.shortcutEntries.any fun q => p.1 != q.1 && p.2 == q.2
  (!conflicts.isEmpty,
   conflicts.map fun p => "Shortcut conflict: " ++ p.1)

/-- Modelled from the spec: `checkSemantics(log?) -> bool` — cross-field
rules; the rule stated by the spec is "if `savePathFixed` is true, `savePath`
must be a valid existing path" (spec §4.4), with filesystem existence outside
the model abstracted to the stored path being a non-empty string (spec §4.1:
"non-empty strings for paths marked fixed"). -/
def Config.checkSemantics (c : Config) : Bool × List String :=
  let fixedBroken :=
    readStore c.store ("", "savePathFixed") == some (Variant.bool true) &&
      (match readStore c.store ("", "savePath") with
       | some (Variant.str s) => s.isEmpty
       | some _ => true
       | none => true)
  if fixedBroken then (true, ["Bad save path while savePathFixed is set"])
  else (false, [])

/-- Modelled from the spec: `checkForErrors(log?) -> bool` "is
`checkUnrecognizedSettings(log) OR checkShortcutConflicts(log) OR
checkSemantics(log)`"; all three checks run and each writes its diagnostics
into the shared log before the verdict is returned (spec §4.4). -/
def Config.checkForErrors (c : Config) : Bool × List String :=
  let r1 := c.checkUnrecognizedSettings
  let r2 := c.checkShortcutConflicts
  let r3 := c.checkSemantics
  (r1.1 || r2.1 || r3.1, r1.2 ++ r2.2 ++ r3.2)

/-- C4: if key sequence `seq` is already bound to action `A`, then
`setShortcut B seq` with `B ≠ A` returns `false` and leaves the configuration
(hence the binding) unchanged; and if the same sequence is bound to the two
distinct action names, `checkShortcutConflicts` detects it. -/
theorem setShortcut_conflict_rejected (c : Config) (A B seq : String)
    (hA : (A, Variant.str seq) ∈ c.shortcutEntries) (hAB : A ≠ B) :
    (c.setShortcut B seq).1 = false ∧ (c.setShortcut B seq).2 = c ∧
    ((B, Variant.str seq) ∈ c.shortcutEntries →
      (c.checkShortcutConflicts).1 = true) := by
  have hcond : (c.shortcutEntries.any fun p =>
      p.2 == Variant.str seq && p.1 != B) = true :=
    List.any_eq_true.mpr ⟨(A, Variant.str seq), hA, by simp [hAB]⟩
  refine ⟨?_, ?_, ?_⟩
  · simp [Config.setShortcut, hcond]
  · simp [Config.setShortcut, hcond]
  · intro hB
    have hmem : (A, Variant.str seq) ∈ c.shortcutEntries.filter fun p =>
        c.shortcutEntries.any fun q => p.1 != q.1 && p.2 == q.2 :=
      List.mem_filter.mpr
        ⟨hA, List.any_eq_true.mpr ⟨(B, Variant.str seq), hB, by simp [hAB]⟩⟩
    have hne := List.ne_nil_of_mem hmem
    simpa [Config.checkShortcutConflicts] using hne

/-- A configuration where `Ctrl+S` is bound to both `TYPE_COPY` and
`TYPE_SAVE` in the `Shortcuts` group. -/
def conflictConfig : Config :=
  { sampleConfig with
      store := [(("Shortcuts", "TYPE_COPY"), Variant.str "Ctrl+S"),
                (("Shortcuts", "TYPE_SAVE"), Variant.str "Ctrl+S")] }

theorem setShortcut_conflict_rejected_witness :
    (conflictConfig.setShortcut "TYPE_SAVE" "Ctrl+S").1 = false ∧
    (conflictConfig.setShortcut "TYPE_SAVE" "Ctrl+S").2 = conflictConfig ∧
    (("TYPE_SAVE", Variant.str "Ctrl+S") ∈ conflictConfig.shortcutEntries →
      (conflictConfig.checkShortcutConflicts).1 = true) :=
  setShortcut_conflict_rejected conflictConfig "TYPE_COPY" "TYPE_SAVE" "Ctrl+S"
    (by decide) (by decide)

/-- C5: `checkForErrors` is the boolean OR of the three checks, and its log
is the concatenation of all three checks' diagnostics — every check
contributes its diagnostics (no short-circuit) before the verdict is
returned. -/
theorem checkForErrors_or_composition (c : Config) :
    (c.checkForErrors).1 =
      ((c.checkUnrecognizedSettings).1 || (c.checkShortcutConflicts).1 ||
        (c.checkSemantics).1) ∧
    (c.checkForErrors).2 =
      (c.checkUnrecognizedSettings).2 ++ (c.checkShortcutConflicts).2 ++
        (c.checkSemantics).2 ∧
    List.Sublist (c.checkUnrecognizedSettings).2 (c.checkForErrors).2 ∧
    List.Sublist (c.checkShortcutConflicts).2 (c.checkForErrors).2 ∧
    List.Sublist (c.checkSemantics).2 (c.checkForErrors).2 := by
  refine ⟨rfl, rfl, ?_, ?_, ?_⟩
  · exact (List.sublist_append_left _ _).trans (List.sublist_append_left _ _)
  · exact ((List.sublist_append_right _ _).trans
      (List.sublist_append_left _ _) : _)
  · exact List.sublist_append_right _ _

/-- C8: a stored key recognized by neither registry makes
`checkUnrecognizedSettings` return `true`, puts a diagnostic naming exactly
that key into the log, and makes `checkForErrors` return `true`; every
diagnostic line names an unrecognized stored key; and a store with only
recognized keys makes `checkUnrecognizedSettings` return `false`. -/
theorem unrecognized_setting_reported (c : Config) :
    (∀ k, k ∈ c.storedKeys → c.isRecognized k = false →
      (c.checkUnrecognizedSettings).1 = true ∧
      ("Unrecognized setting: " ++ k.flat) ∈ (c.checkUnrecognizedSettings).2 ∧
      (c.checkForErrors).1 = true) ∧
    (∀ m, m ∈ (c.checkUnrecognizedSettings).2 →
      ∃ k, k ∈ c.storedKeys ∧ c.isRecognized k = false ∧
        m = "Unrecognized setting: " ++ k.flat) ∧
    ((∀ k, k ∈ c.storedKeys → c.isRecognized k = true) →
      (c.checkUnrecognizedSettings).1 = false) := by
  refine ⟨?_, ?_, ?_⟩
  · intro k hk hbad
    have hmem : k ∈ c.storedKeys.filter fun k => !(c.isRecognized k) :=
      List.mem_filter.mpr ⟨hk, by simp [hbad]⟩
    have hne := List.ne_nil_of_mem hmem
    refine ⟨?_, ?_, ?_⟩
    · simpa [Config.checkUnrecognizedSettings] using hne
    · exact List.mem_map.mpr ⟨k, hmem, rfl⟩
    · have h1 : (c.checkUnrecognizedSettings).1 = true := by
        simpa [Config.checkUnrecognizedSettings] using hne
      simp [Config.checkForErrors, h1]
  · intro m hm
    rcases List.mem_map.mp hm with ⟨k, hk, rfl⟩
    rcases List.mem_filter.mp hk with ⟨hk1, hk2⟩
    exact ⟨k, hk1, by simpa using hk2, rfl⟩
  · intro hall
    have : (c.storedKeys.filter fun k => !(c.isRecognized k)) = [] :=
      List.filter_eq_nil_iff.mpr fun k hk => by simp [hall k hk]
    simp [Config.checkUnrecognizedSettings, this]

/-- A configuration whose store holds the unrecognized key `foo/bar`
alongside a recognized one (the spec §8 scenario). -/
def unrecognizedConfig : Config :=
  { sampleConfig with
      store := [(("", "savePathFixed"), Variant.bool false),
                (("foo", "bar"), Variant.str "x")] }

theorem unrecognized_setting_reported_witness :
    ((unrecognizedConfig.checkUnrecognizedSettings).1 = true ∧
      ("Unrecognized setting: " ++ GroupKey.flat ("foo", "bar")) ∈
        (unrecognizedConfig.checkUnrecognizedSettings).2 ∧
      (unrecognizedConfig.checkForErrors).1 = true) ∧
    ((sampleConfig.checkUnrecognizedSettings).1 = false) :=
  ⟨(unrecognized_setting_reported unrecognizedConfig).1 ("foo", "bar")
      (by decide) (by decide),
   (unrecognized_setting_reported sampleConfig).2.2 (by decide)⟩

/-!  The error state machine and the file watch bridge. -/

/-- The process-wide error flags (spec §3 "ErrorState"):
`{ hasError, errorCheckPending, skipNextErrorCheck }`, the static members
`m_hasError`, `m_errorCheckPending`, `m_skipNextErrorCheck` of the header. -/
structure ErrorState where
  hasError : Bool
  errorCheckPending : Bool
  skipNextErrorCheck : Bool
deriving DecidableEq, Repr

/-- The notifications the handler can emit: the Qt signals `error()`,
`errorResolved()` and `fileChanged()` declared in the header. -/
inductive ConfigSignal where
  | error
  | errorResolved
  | fileChanged
deriving DecidableEq, Repr

/-- Modelled from the spec: `setErrorState(error)` — "on failure transition
`OK -> ERROR` and emit an `error` notification (idempotent: no duplicate
emission if already in `ERROR`); on success while in `ERROR`, transition
`ERROR -> OK` and emit `errorResolved`" (spec §4.5).  Returns the new state
and the list of emitted notifications. -/
def setErrorState (s : ErrorState) (err : Bool) : ErrorState × List ConfigSignal :=
  if s.hasError == err then (s, [])
  else if err then ({ s with hasError := true }, [ConfigSignal.error])
  else ({ s with hasError := false }, [ConfigSignal.errorResolved])

/-- Modelled from the spec: `checkAndHandleError()` — "if `skipNextErrorCheck`
is set, clear it and return without checking (consumes the suppression
exactly once)"; otherwise run the Validation Pipeline and feed its verdict to
the state transition (spec §4.5). -/
def checkAndHandleError (c : Config) (s : ErrorState) :
    ErrorState × List ConfigSignal :=
  if s.skipNextErrorCheck then ({ s with skipNextErrorCheck := false }, [])
  else setErrorState s (c.checkForErrors).1

/-- Modelled from the spec: the watch callback of the File Watch Bridge
(`ensureFileWatched` wires it) — on an external modification it re-arms the
watch (no watch state in this model), "invokes `checkAndHandleError()`, then
emits a `fileChanged` notification regardless of validation outcome"
(spec §4.6). -/
def fileWatchEvent (c : Config) (s : ErrorState) :
    ErrorState × List ConfigSignal :=
  ((checkAndHandleError c s).1,
   (checkAndHandleError c s).2 ++ [ConfigSignal.fileChanged])

/-- C6: when `skipNextErrorCheck` is set, `checkAndHandleError` clears the
flag, runs no validation (no notification, `hasError` and
`errorCheckPending` unchanged), and the suppression is consumed exactly once:
the immediately subsequent call takes the normal validation branch. -/
theorem skip_consumed_once (c : Config) (s : ErrorState)
    (h : s.skipNextErrorCheck = true) :
    (checkAndHandleError c s).2 = [] ∧
    (checkAndHandleError c s).1.hasError = s.hasError ∧
    (checkAndHandleError c s).1.errorCheckPending = s.errorCheckPending ∧
    (checkAndHandleError c s).1.skipNextErrorCheck = false ∧
    checkAndHandleError c (checkAndHandleError c s).1 =
      setErrorState (checkAndHandleError c s).1 (c.checkForErrors).1 := by
  simp [checkAndHandleError, h]

/-- A state in `ERROR` with the one-shot suppression armed. -/
def suppressedState : ErrorState where
  hasError := true
  errorCheckPending := false
  skipNextErrorCheck := true

theorem skip_consumed_once_witness :
    (checkAndHandleError sampleConfig suppressedState).2 = [] ∧
    (checkAndHandleError sampleConfig suppressedState).1.hasError =
      suppressedState.hasError ∧
    (checkAndHandleError sampleConfig suppressedState).1.errorCheckPending =
      suppressedState.errorCheckPending ∧
    (checkAndHandleError sampleConfig
        suppressedState).1.skipNextErrorCheck = false ∧
    checkAndHandleError sampleConfig
        (checkAndHandleError sampleConfig suppressedState).1 =
      setErrorState (checkAndHandleError sampleConfig suppressedState).1
        (sampleConfig.checkForErrors).1 :=
  skip_consumed_once sampleConfig suppressedState rfl

/-- C7: with no suppression pending and no intervening change of the stored
state, a second `checkAndHandleError` re-confirms the verdict without any
further transition or notification; the first call emits `error` exactly on
the OK-to-ERROR transition and `errorResolved` exactly on the ERROR-to-OK
transition. -/
theorem checkAndHandleError_idempotent (c : Config) (s : ErrorState)
    (h : s.skipNextErrorCheck = false) :
    (checkAndHandleError c (checkAndHandleError c s).1).1 =
        (checkAndHandleError c s).1 ∧
    (checkAndHandleError c (checkAndHandleError c s).1).2 = [] ∧
    ((checkAndHandleError c s).2 = [ConfigSignal.error] ↔
      s.hasError = false ∧ (c.checkForErrors).1 = true) ∧
    ((checkAndHandleError c s).2 = [ConfigSignal.errorResolved] ↔
      s.hasError = true ∧ (c.checkForErrors).1 = false) := by
  cases hE : s.hasError <;> cases hV : (c.checkForErrors).1 <;>
    simp [checkAndHandleError, setErrorState, h, hE, hV]

/-- A healthy state with no suppression pending. -/
def okState : ErrorState where
  hasError := false
  errorCheckPending := false
  skipNextErrorCheck := false

theorem checkAndHandleError_idempotent_witness :
    (checkAndHandleError unrecognizedConfig
        (checkAndHandleError unrecognizedConfig okState).1).1 =
      (checkAndHandleError unrecognizedConfig okState).1 ∧
    (checkAndHandleError unrecognizedConfig
        (checkAndHandleError unrecognizedConfig okState).1).2 = [] ∧
    ((checkAndHandleError unrecognizedConfig okState).2 =
        [ConfigSignal.error] ↔
      okState.hasError = false ∧
        (unrecognizedConfig.checkForErrors).1 = true) ∧
    ((checkAndHandleError unrecognizedConfig okState).2 =
        [ConfigSignal.errorResolved] ↔
      okState.hasError = true ∧
        (unrecognizedConfig.checkForErrors).1 = false) :=
  checkAndHandleError_idempotent unrecognizedConfig okState rfl

/-- C9: the watch callback runs validation first and emits `fileChanged`
afterwards and unconditionally: `fileChanged` is the last notification, the
notifications before it are exactly those of `checkAndHandleError`, and
validation itself never emits `fileChanged` — so any `error` /
`errorResolved` caused by the edit is delivered before `fileChanged`, which
fires for every verdict. -/
theorem fileChanged_after_validation (c : Config) (s : ErrorState) :
    (fileWatchEvent c s).1 = (checkAndHandleError c s).1 ∧
    (fileWatchEvent c s).2.getLast? = some ConfigSignal.fileChanged ∧
    (fileWatchEvent c s).2.dropLast = (checkAndHandleError c s).2 ∧
    ConfigSignal.fileChanged ∉ (checkAndHandleError c s).2 := by
  refine ⟨rfl, List.getLast?_concat _, by simp [fileWatchEvent], ?_⟩
  cases hS : s.skipNextErrorCheck <;> cases hE : s.hasError <;>
    cases hV : (c.checkForErrors).1 <;>
      simp [checkAndHandleError, setErrorState, hS, hE, hV]

/-!  The accessor macros of `confighandler.h` (embedded from the source,
lines 24–46 and 61–103). -/

/-- Whether a generated accessor reads or writes. -/
inductive AccessorKind where
  | getter
  | setter
deriving DecidableEq, Repr

/-- A member function generated by one accessor macro expansion: its name,
the persisted key string it addresses, the C++ value type, and whether it
reads or writes. -/
structure Accessor where
  funcName : String
  key : String
  cppType : String
  kind : AccessorKind
deriving DecidableEq, Repr

/-- Embedded from the source (confighandler.h lines 24–25):
`CONFIG_GETTER(KEY, TYPE)` declares `TYPE KEY() { return
value(QStringLiteral(#KEY)).value<TYPE>(); }` — the generated function and
the key it reads are both the stringified `KEY` argument. -/
def CONFIG_GETTER (KEY TYPE : String) : Accessor where
  funcName := KEY
  key := KEY
  cppType := TYPE
  kind := AccessorKind.getter

/-- Embedded from the source (lines 32–36): `CONFIG_SETTER(FUNC, KEY, TYPE)`
declares `void FUNC(const TYPE& value) {
setValue(QStringLiteral(#KEY), QVariant::fromValue(value)); }` — the key it
writes is the stringified `KEY` argument. -/
def CONFIG_SETTER (FUNC KEY TYPE : String) : Accessor where
  funcName := FUNC
  key := KEY
  cppType := TYPE
  kind := AccessorKind.setter

/-- Embedded from the source (lines 44–46): `CONFIG_GETTER_SETTER(GETFUNC,
SETFUNC, TYPE)` expands to `CONFIG_GETTER(GETFUNC, TYPE)
CONFIG_SETTER(SETFUNC, GETFUNC, TYPE)`: the getter's name `GETFUNC` is passed
as the `KEY` argument of both underlying macros. -/
def CONFIG_GETTER_SETTER (GETFUNC SETFUNC TYPE : String) : List Accessor :=
  [CONFIG_GETTER GETFUNC TYPE, CONFIG_SETTER SETFUNC GETFUNC TYPE]

/-- The accessor declarations of `ConfigHandler` (confighandler.h lines
61–97 and the special-case `CONFIG_SETTER` on line 103). -/
def configHandlerAccessors : List Accessor :=
  CONFIG_GETTER_SETTER "userColors" "setUserColors" "QVector<QColor>" ++
  CONFIG_GETTER_SETTER "savePath" "setSavePath" "QString" ++
  CONFIG_GETTER_SETTER "savePathFixed" "setSavePathFixed" "bool" ++
  CONFIG_GETTER_SETTER "uiColor" "setUiColor" "QColor" ++
  CONFIG_GETTER_SETTER "contrastUiColor" "setContrastUiColor" "QColor" ++
  CONFIG_GETTER_SETTER "drawColor" "setDrawColor" "QColor" ++
  CONFIG_GETTER_SETTER "fontFamily" "setFontFamily" "QString" ++
  CONFIG_GETTER_SETTER "showHelp" "setShowHelp" "bool" ++
  CONFIG_GETTER_SETTER "showSidePanelButton" "setShowSidePanelButton" "bool" ++
  CONFIG_GETTER_SETTER "showDesktopNotification"
    "setShowDesktopNotification" "bool" ++
  CONFIG_GETTER_SETTER "filenamePattern" "setFilenamePattern" "QString" ++
  CONFIG_GETTER_SETTER "disabledTrayIcon" "setDisabledTrayIcon" "bool" ++
  CONFIG_GETTER_SETTER "drawThickness" "setDrawThickness" "int" ++
  CONFIG_GETTER_SETTER "drawFontSize" "setDrawFontSize" "int" ++
  CONFIG_GETTER_SETTER "keepOpenAppLauncher" "setKeepOpenAppLauncher" "bool" ++
  CONFIG_GETTER_SETTER "checkForUpdates" "setCheckForUpdates" "bool" ++
  CONFIG_GETTER_SETTER "showStartupLaunchMessage"
    "setShowStartupLaunchMessage" "bool" ++
  CONFIG_GETTER_SETTER "contrastOpacity" "setContrastOpacity" "int" ++
  CONFIG_GETTER_SETTER "copyAndCloseAfterUpload"
    "setCopyAndCloseAfterUpload" "bool" ++
  CONFIG_GETTER_SETTER "historyConfirmationToDelete"
    "setHistoryConfirmationToDelete" "bool" ++
  CONFIG_GETTER_SETTER "uploadHistoryMax" "setUploadHistoryMax" "int" ++
  CONFIG_GETTER_SETTER "saveAfterCopy" "setSaveAfterCopy" "bool" ++
  CONFIG_GETTER_SETTER "copyPathAfterSave" "setCopyPathAfterSave" "bool" ++
  CONFIG_GETTER_SETTER "useJpgForClipboard" "setUseJpgForClipboard" "bool" ++
  CONFIG_GETTER_SETTER "ignoreUpdateToVersion"
    "setIgnoreUpdateToVersion" "QString" ++
  CONFIG_GETTER_SETTER "undoLimit" "setUndoLimit" "int" ++
  CONFIG_GETTER_SETTER "buttons" "setButtons" "QList<CaptureTool::Type>" ++
  [CONFIG_SETTER "setSaveAsFileExtension" "setSaveAsFileExtension" "QString"]

/-- C10: every accessor generated by the macros addresses exactly the
stringified `KEY` macro argument, so both members of a
`CONFIG_GETTER_SETTER` pair address one identical key equal to the getter's
name; the special-case `CONFIG_SETTER(setSaveAsFileExtension,
setSaveAsFileExtension, QString)` of the header writes under the key string
`"setSaveAsFileExtension"`. -/
theorem accessor_key_is_stringified_arg :
    (∀ g t, (CONFIG_GETTER g t).key = g) ∧
    (∀ f k t, (CONFIG_SETTER f k t).key = k) ∧
    (∀ g s t, ∀ a ∈ CONFIG_GETTER_SETTER g s t, a.key = g) ∧
    (CONFIG_SETTER "setSaveAsFileExtension" "setSaveAsFileExtension"
        "QString").key = "setSaveAsFileExtension" ∧
    CONFIG_SETTER "setSaveAsFileExtension" "setSaveAsFileExtension"
        "QString" ∈ configHandlerAccessors := by
  refine ⟨fun g t => rfl, fun f k t => rfl, ?_, rfl, ?_⟩
  · intro g s t a ha
    have ha' : a = CONFIG_GETTER g t ∨ a = CONFIG_SETTER s g t := by
      simpa [CONFIG_GETTER_SETTER] using ha
    rcases ha' with rfl | rfl <;> rfl
  · simp [configHandlerAccessors]

theorem accessor_key_is_stringified_arg_witness :
    (CONFIG_GETTER "savePath" "QString").key = "savePath" ∧
    (CONFIG_SETTER "setSavePath" "savePath" "QString").key = "savePath" :=
  ⟨accessor_key_is_stringified_arg.2.2.1 "savePath" "setSavePath" "QString"
      (CONFIG_GETTER "savePath" "QString") (by decide),
   accessor_key_is_stringified_arg.2.2.1 "savePath" "setSavePath" "QString"
      (CONFIG_SETTER "setSavePath" "savePath" "QString") (by decide)⟩

end Flameshot
